import Mathlib

/-!
Shallow embedding of the opal repository's update-propagation core:
the GitHub webhook endpoint (`opal/server/policy/github_webhook/api.py`),
the policy updater (`opal/client/policy/updater.py`) and the client
orchestrator (`opal_client/client.py`).  Python strings are embedded as
Lean `String`s (character-level operations go through `String.data`),
async side effects are embedded as explicit event traces, and external
collaborators (fetcher, policy store, transport) are parameters.
-/

/-! ## Webhook bridge: `trigger_git_webhook` in `opal/server/policy/github_webhook/api.py` -/

/-- Response dictionary of the webhook endpoint: either
`{"status": "ok", "event": event, "repo_url": repo_url}` or
`{"status": "ignored", "event": event}`. -/
inductive WebhookResponse
  | ok (event : String) (repo_url : String)
  | ignored (event : String)
deriving DecidableEq, Repr

/-- Observable outcome of one webhook request: the topics published on the
pubsub endpoint (in order) and the returned response. -/
structure WebhookResult where
  published : List String
  response : WebhookResponse
deriving DecidableEq, Repr

/-- Embedding of Python `headers.get(key, default)` over an association list. -/
def headers_get (headers : List (String × String)) (key dflt : String) : String :=
  match headers.lookup key with
  | some v => v
  | none => dflt

/-- Embedding of the `trigger_git_webhook` handler body (signature validation
already passed, `urls` already extracted by the `affected_repo_urls` dependency).
`none` models an uncaught `IndexError` from `urls[0]`. -/
def trigger_git_webhook (policy_repo_url : Option String)
    (headers : List (String × String)) (urls : List String) : Option WebhookResult :=
  let event := headers_get headers "X-GitHub-Event" "ping"
  match policy_repo_url with
  | some repo =>
    if repo ∈ urls then
      match urls[0]? with
      | some u =>
        some { published := if event = "push" then ["webhook"] else [],
               response := WebhookResponse.ok event u }
      | none => none
    else
      some { published := [], response := WebhookResponse.ignored event }
  | none => some { published := [], response := WebhookResponse.ignored event }

/-! ## Topic router: `opal/client/policy/topics.py` (imported by the updater but
not part of the given sources; modelled from the spec). -/

/-- Modelled from the spec: the fixed namespace prefix of directory-derived
topics ("directory-derived topic = fixed namespace prefix + directory path"). -/
def POLICY_PREFIX : String := "policy:"

/-- Modelled from the spec: `topicToDirectory` strips the prefix when present
and otherwise leaves the string unchanged (Python
`s[len(prefix):] if s.startswith(prefix) else s`). -/
def remove_prefix (s p : String) : String :=
  if p.data.isPrefixOf s.data then String.mk (s.data.drop p.data.length) else s

/-- Modelled from the spec: `directoriesToTopics` produces one topic per
directory by prefixing; deterministic, order-preserving. -/
def dirs_to_topics (dirs : List String) : List String :=
  dirs.map (fun d => POLICY_PREFIX ++ d)

/-- Modelled from the spec: the set of all configured policy directories
(the updater's configuration value `POLICY_SUBSCRIPTION_DIRS`). -/
def all_policy_directories (config_dirs : List String) : List String :=
  config_dirs

/-! ## Update reconciler: `opal/client/policy/updater.py`.
The fetch collaborator `policy_fetcher.fetch_policy_bundle` is a parameter
`fetch : List String → Option B` (`none` = no bundle); the policy store is
observed through the trace of its `set_policies` calls. -/

/-- Trace of one reconcile: the directory lists passed to the fetch
collaborator and the bundles passed to `policy_store.set_policies`. -/
structure UpdateResult (B : Type) where
  fetched : List (List String)
  set_policies_calls : List B
deriving DecidableEq, Repr

/-- Embedding of module-level `update_policy(directories, policy_store)`:
an empty `directories` resolves to all configured directories; the bundle is
applied only when the fetcher returns one. -/
def update_policy {B : Type} (config_dirs : List String)
    (fetch : List String → Option B) (directories : List String) : UpdateResult B :=
  let dirs := if directories.isEmpty then all_policy_directories config_dirs else directories
  match fetch dirs with
  | some bundle => { fetched := [dirs], set_policies_calls := [bundle] }
  | none => { fetched := [dirs], set_policies_calls := [] }

/-- Embedding of `refetch_policy_and_update_opa`: calls `update_policy` with
no directories. -/
def refetch_policy_and_update_opa {B : Type} (config_dirs : List String)
    (fetch : List String → Option B) : UpdateResult B :=
  update_policy config_dirs fetch []

/-- Embedding of `PolicyUpdater._update_policy(data, topic)`: the first
component is the list of warnings logged, the second the reconcile trace. -/
def PolicyUpdater._update_policy {B : Type} (config_dirs : List String)
    (fetch : List String → Option B) (topic : String) : List String × UpdateResult B :=
  if List.isPrefixOf POLICY_PREFIX.data topic.data then
    ([], update_policy config_dirs fetch [ remove_prefix topic POLICY_PREFIX])
  else
    (["invalid policy topic"],
      update_policy config_dirs fetch (all_policy_directories config_dirs))

/-- Embedding of `PolicyUpdater.on_connect`: fired on every successful
(re)connection; logs and refetches everything. The first component is the
log trace, the second the reconcile trace. -/
def PolicyUpdater.on_connect {B : Type} (config_dirs : List String)
    (fetch : List String → Option B) : List String × UpdateResult B :=
  (["Connected to server"], refetch_policy_and_update_opa config_dirs fetch)

/-! ## `PolicyUpdater.stop`: sequential trace of
`await self._client.disconnect(); self._thread.stop()`. -/

/-- Events observable while stopping the policy updater. -/
inductive UpdaterStopEvent
  | disconnectStarted
  | disconnectCompleted
  | threadStopped
deriving DecidableEq, Repr

/-- Trace of `await self._client.disconnect()`: awaiting the coroutine means
control does not proceed until the disconnect has completed. -/
def client_disconnect_trace : List UpdaterStopEvent :=
  [UpdaterStopEvent.disconnectStarted, UpdaterStopEvent.disconnectCompleted]

/-- Trace of `self._thread.stop()`: tears down the dedicated event-loop thread. -/
def thread_stop_trace : List UpdaterStopEvent :=
  [UpdaterStopEvent.threadStopped]

/-- Embedding of `PolicyUpdater.stop`: sequential composition of the awaited
disconnect followed by the thread teardown. -/
def PolicyUpdater.stop : List UpdaterStopEvent :=
  client_disconnect_trace ++ thread_stop_trace

/-! ## Orchestrator: `OpalClient` in `opal_client/client.py`. -/

/-- Exceptions that a launch task (`launch_policy_updater` /
`launch_data_updater`) can raise at startup. -/
inductive LaunchExc
  | invalidStatusCode
  | otherExc
deriving DecidableEq, Repr

/-- Operating-system signals relevant to the orchestrator. `SIGTERM` is the
standard termination signal (number 15, the one `signal.SIGTERM` denotes);
`SIGINT` is the standard interrupt signal (number 2, a keyboard interrupt). -/
inductive Signal
  | SIGTERM
  | SIGINT
deriving DecidableEq, Repr

/-- Events observable from `launch_policy_store_dependent_tasks`. -/
inductive OrchEvent
  | launchPolicyUpdater
  | launchDataUpdater
  | logError
  | logInfo
  | killSelf (sig : Signal)
deriving DecidableEq, Repr

/-- Embedding of the `for task in asyncio.as_completed(...): await task` loop:
given each task's outcome in completion order (`none` = returned normally),
the loop finishes normally unless a task raised, in which case the first
exception in completion order propagates out of the loop. -/
def await_as_completed : List (Option LaunchExc) → Option LaunchExc
  | [] => none
  | none :: rest => await_as_completed rest
  | some e :: _ => some e

/-- Embedding of `OpalClient.launch_policy_store_dependent_tasks`, as a
function of the two launch tasks' outcomes in completion order: returns the
event trace and the exception escaping the method, if any.  Only
`websockets.exceptions.InvalidStatusCode` is caught; it is logged and answered
with `os.kill(os.getpid(), signal.SIGTERM)`. -/
def launch_policy_store_dependent_tasks
    (results : List (Option LaunchExc)) : List OrchEvent × Option LaunchExc :=
  let launches := [OrchEvent.launchPolicyUpdater, OrchEvent.launchDataUpdater]
  match await_as_completed results with
  | none => (launches, none)
  | some LaunchExc.invalidStatusCode =>
      (launches ++ [OrchEvent.logError, OrchEvent.logInfo,
        OrchEvent.killSelf Signal.SIGTERM], none)
  | some LaunchExc.otherExc => (launches, some LaunchExc.otherExc)

/-! ## Orchestrator shutdown: `OpalClient.stop_client_background_tasks`. -/

/-- Outcome of one updater's `stop()` coroutine: it either completes after
`t` seconds (`raisesExc` = it ended by raising an exception) or hangs
forever. -/
inductive StopOutcome
  | completes (t : Nat) (raisesExc : Bool)
  | hangs
deriving DecidableEq, Repr

/-- Semantics of `asyncio.gather(*tasks, return_exceptions=True)`: every task
is awaited; exceptions are captured as results instead of propagating; the
gather completes (at the max of the completion times) only when every task
has completed, and never completes if any task hangs. -/
def gather_return_exceptions : List StopOutcome → Option (Nat × List Bool)
  | [] => some (0, [])
  | StopOutcome.hangs :: _ => none
  | StopOutcome.completes t e :: rest =>
    match gather_return_exceptions rest with
    | some (t2, es) => some (max t t2, e :: es)
    | none => none

/-- Result of one awaited operation under `asyncio.wait_for`: completed with
a value before the deadline, or a `TimeoutError` at the deadline. -/
inductive AwaitResult (A : Type)
  | completed (t : Nat) (value : A)
  | timeoutError
deriving DecidableEq, Repr

/-- Semantics of `asyncio.wait_for(aw, timeout)`: yields the awaitable's value
if it completes within the timeout, otherwise raises `TimeoutError`. -/
def wait_for {A : Type} (timeout : Nat) : Option (Nat × A) → AwaitResult A
  | some (t, v) => if t ≤ timeout then AwaitResult.completed t v else AwaitResult.timeoutError
  | none => AwaitResult.timeoutError

/-- Observable outcome of `stop_client_background_tasks`. -/
structure ShutdownResult where
  opa_stopped : Bool
  tasks_created : Nat
  gather_results : Option (List Bool)
  timed_out : Bool
  logged_timeout : Bool
  elapsed : Nat
deriving DecidableEq, Repr

/-- Embedding of `OpalClient.stop_client_background_tasks`: stops the opa
runner if present, creates a stop task per configured updater (data first,
then policy, as in the source), gathers them with `return_exceptions=True`
under a 5 second `wait_for`, and catches `TimeoutError` (logging it).  The
`Except` return type records whether any exception escapes the method. -/
def stop_client_background_tasks (opa_runner : Bool)
    (data_updater policy_updater : Option StopOutcome) :
    Except String ShutdownResult :=
  let tasks := data_updater.toList ++ policy_updater.toList
  match wait_for 5 (gather_return_exceptions tasks) with
  | AwaitResult.completed t results =>
      Except.ok
        { opa_stopped := opa_runner, tasks_created := tasks.length,
          gather_results := some results, timed_out := false,
          logged_timeout := false, elapsed := t }
  | AwaitResult.timeoutError =>
      Except.ok
        { opa_stopped := opa_runner, tasks_created := tasks.length,
          gather_results := none, timed_out := true,
          logged_timeout := true, elapsed := 5 }

/-! ## Helper lemmas -/

/-- Stripping a prefix that was just appended recovers the original string. -/
theorem remove_prefix_append (p d : String) : remove_prefix (p ++ d) p = d := by
  unfold remove_prefix
  have hpre : p.data.isPrefixOf (p ++ d).data = true := by
    rw [String.data_append, List.isPrefixOf_iff_prefix]
    exact List.prefix_append p.data d.data
  rw [if_pos hpre, String.data_append]
  have hdrop : (p.data ++ d.data).drop p.data.length = d.data := by simp
  rw [hdrop]

/-- The fetch trace of `update_policy` is always exactly one fetch of the
resolved directory set. -/
theorem update_policy_fetched_eq {B : Type} (config_dirs : List String)
    (fetch : List String → Option B) (directories : List String) :
    ( update_policy config_dirs fetch directories).fetched =
      [if directories.isEmpty then all_policy_directories config_dirs else directories] := by
  cases hf : fetch (if directories.isEmpty then all_policy_directories config_dirs
      else directories) <;> simp only [update_policy, hf]

/-- Semantic fact about `wait_for`: a completed await implies the deadline
was met. -/
theorem wait_for_completed_le {A : Type} (timeout : Nat) (o : Option (Nat × A))
    (t : Nat) (v : A) (h : wait_for timeout o = AwaitResult.completed t v) :
    t ≤ timeout := by
  match o with
  | none => exact absurd h (by simp [wait_for])
  | some (t', v') =>
    simp only [wait_for] at h
    by_cases hle : t' ≤ timeout
    · rw [if_pos hle] at h
      cases h
      exact hle
    · rw [if_neg hle] at h
      cases h

/-- Equation lemma for `wait_for` on a completed awaitable. -/
theorem wait_for_some {A : Type} (timeout t : Nat) (v : A) :
    wait_for timeout (some (t, v)) =
      if t ≤ timeout then AwaitResult.completed t v else AwaitResult.timeoutError :=
  rfl

/-- Unfolding equation for `stop_client_background_tasks` with the task list
made explicit. -/
theorem stop_client_background_tasks_eq (opa_runner : Bool)
    (data_updater policy_updater : Option StopOutcome) :
    stop_client_background_tasks opa_runner data_updater policy_updater =
      match wait_for 5 (gather_return_exceptions
          (data_updater.toList ++ policy_updater.toList)) with
      | AwaitResult.completed t results =>
          Except.ok
            { opa_stopped := opa_runner,
              tasks_created := (data_updater.toList ++ policy_updater.toList).length,
              gather_results := some results, timed_out := false,
              logged_timeout := false, elapsed := t }
      | AwaitResult.timeoutError =>
          Except.ok
            { opa_stopped := opa_runner,
              tasks_created := (data_updater.toList ++ policy_updater.toList).length,
              gather_results := none, timed_out := true,
              logged_timeout := true, elapsed := 5 } :=
  rfl

/-! ## Claims -/

/-- Claim C1, counterexample: a webhook request whose event is
"pull_request" for the configured repository returns
`{"status": "ok", ...}` rather than the `{"status": "ignored", ...}` the
claim requires (publication indeed does not occur). -/
theorem webhook_pull_request_returns_ok :
    trigger_git_webhook (some "https://github.com/acme/policy")
        [("X-GitHub-Event", "pull_request")] ["https://github.com/acme/policy"] =
      some { published := [],
             response := WebhookResponse.ok "pull_request"
               "https://github.com/acme/policy" } ∧
    WebhookResponse.ok "pull_request" "https://github.com/acme/policy" ≠
      WebhookResponse.ignored "pull_request" :=
  ⟨by decide, by decide⟩

/-- Claim C1 (amended): for every request passing signature validation, if
the configured policy-repository URL is among the affected URLs then the
response is `{status:"ok", event, repo_url := urls[0]}` and the control
topic "webhook" is published exactly once when the event is "push" and not
at all otherwise; if no repository is configured or the configured one is
not among the affected URLs, the response is `{status:"ignored", event}`
and no publication occurs. -/
theorem webhook_request_behavior (policy_repo_url : Option String)
    (headers : List (String × String)) (urls : List String) :
    (∀ repo, policy_repo_url = some repo → repo ∈ urls →
      ∃ u rest, urls = u :: rest ∧
        trigger_git_webhook policy_repo_url headers urls =
          some { published :=
                   if headers_get headers "X-GitHub-Event" "ping" = "push"
                   then ["webhook"] else [],
                 response := WebhookResponse.ok
                   (headers_get headers "X-GitHub-Event" "ping") u }) ∧
    ((∀ repo, policy_repo_url = some repo → repo ∉ urls) →
      trigger_git_webhook policy_repo_url headers urls =
        some { published := [],
               response := WebhookResponse.ignored
                 (headers_get headers "X-GitHub-Event" "ping") }) := by
  constructor
  · rintro repo rfl hmem
    cases urls with
    | nil => exact absurd hmem (List.not_mem_nil repo)
    | cons u rest =>
      exact ⟨u, rest, rfl, by simp [trigger_git_webhook, hmem]⟩
  · intro hno
    match hpol : policy_repo_url with
    | none => simp [trigger_git_webhook]
    | some repo => simp [trigger_git_webhook, hno repo rfl]

/-- Claim C1 witness: a concrete "push" request for the configured
repository publishes "webhook" once and answers ok. -/
theorem webhook_request_behavior_witness :
    trigger_git_webhook (some "r") [("X-GitHub-Event", "push")] ["r"] =
      some { published := ["webhook"], response := WebhookResponse.ok "push" "r" } := by
  obtain ⟨u, rest, hurls, heq⟩ :=
    (webhook_request_behavior (some "r") [("X-GitHub-Event", "push")] ["r"]).1
      "r" rfl (by decide)
  injection hurls with h1 h2
  subst h1
  rw [heq]
  decide

/-- Claim C9: whenever the webhook handler takes the matching-repository
branch, the affected-URLs list is non-empty, so the `urls[0]` indexing
never fails and the handler returns (no `IndexError`); the returned
`repo_url` is the first element of the list, which need not equal the
configured URL that matched (concrete second conjunct). -/
theorem webhook_matching_branch_index_safe :
    (∀ (repo : String) (headers : List (String × String)) (urls : List String),
      repo ∈ urls →
      ∃ u rest, urls = u :: rest ∧ urls[0]? = some u ∧
        trigger_git_webhook (some repo) headers urls =
          some { published :=
                   if headers_get headers "X-GitHub-Event" "ping" = "push"
                   then ["webhook"] else [],
                 response := WebhookResponse.ok
                   (headers_get headers "X-GitHub-Event" "ping") u }) ∧
    (trigger_git_webhook (some "r") [] ["s", "r"] =
        some { published := [], response := WebhookResponse.ok "ping" "s" } ∧
      ("s" : String) ≠ "r") := by
  constructor
  · intro repo headers urls hmem
    cases urls with
    | nil => exact absurd hmem (List.not_mem_nil repo)
    | cons u rest =>
      exact ⟨u, rest, rfl, by simp, by simp [trigger_git_webhook, hmem]⟩
  · exact ⟨by decide, by decide⟩

/-- Claim C9 witness: at a concrete matching input the handler returns and
`repo_url` is the head of the affected-URLs list. -/
theorem webhook_matching_branch_index_safe_witness :
    trigger_git_webhook (some "x") [] ["x"] =
      some { published := [], response := WebhookResponse.ok "ping" "x" } := by
  obtain ⟨u, rest, hurls, _, heq⟩ :=
    webhook_matching_branch_index_safe.1 "x" [] ["x"] (by decide)
  injection hurls with h1 h2
  subst h1
  rw [heq]
  decide

/-- Claim C2: on every successful connection event (first connect or
reconnect), `on_connect` logs the connect and triggers exactly one
reconcile, whose resolved directory set is all configured policy
directories, regardless of prior state (the handler depends on no state). -/
theorem on_connect_full_reconcile {B : Type} (config_dirs : List String)
    (fetch : List String → Option B) :
    ( PolicyUpdater.on_connect config_dirs fetch).2.fetched =
      [ all_policy_directories config_dirs] ∧
    ( PolicyUpdater.on_connect config_dirs fetch).1 = ["Connected to server"] := by
  refine ⟨?_, rfl⟩
  show ( update_policy config_dirs fetch []).fetched = _
  rw [update_policy_fetched_eq]
  rfl

/-- Claim C3: for every notification, if the topic starts with the policy
prefix the reconcile is invoked with exactly the one directory obtained by
stripping the prefix (never the full configured set); otherwise a warning
is logged and the reconcile is invoked with the full configured directory
set; in both cases exactly one reconcile happens — no exception, no
silently dropped notification. -/
theorem updater_topic_classification {B : Type} (config_dirs : List String)
    (fetch : List String → Option B) (topic : String) :
    (List.isPrefixOf POLICY_PREFIX.data topic.data = true →
      ( PolicyUpdater._update_policy config_dirs fetch topic).1 = [] ∧
      ( PolicyUpdater._update_policy config_dirs fetch topic).2.fetched =
        [[ remove_prefix topic POLICY_PREFIX]]) ∧
    (List.isPrefixOf POLICY_PREFIX.data topic.data = false →
      ( PolicyUpdater._update_policy config_dirs fetch topic).1 =
        ["invalid policy topic"] ∧
      ( PolicyUpdater._update_policy config_dirs fetch topic).2.fetched =
        [ all_policy_directories config_dirs]) ∧
    ( PolicyUpdater._update_policy config_dirs fetch topic).2.fetched.length = 1 := by
  refine ⟨?_, ?_, ?_⟩
  · intro h
    have h2 : ( PolicyUpdater._update_policy config_dirs fetch topic) =
        ([], update_policy config_dirs fetch [ remove_prefix topic POLICY_PREFIX]) := by
      simp [PolicyUpdater._update_policy, h]
    rw [h2, update_policy_fetched_eq]
    exact ⟨rfl, rfl⟩
  · intro h
    have h2 : ( PolicyUpdater._update_policy config_dirs fetch topic) =
        (["invalid policy topic"],
          update_policy config_dirs fetch (all_policy_directories config_dirs)) := by
      simp [PolicyUpdater._update_policy, h]
    rw [h2, update_policy_fetched_eq]
    refine ⟨rfl, ?_⟩
    unfold all_policy_directories
    cases config_dirs <;> simp
  · by_cases h : List.isPrefixOf POLICY_PREFIX.data topic.data <;>
      simp [PolicyUpdater._update_policy, h, update_policy_fetched_eq]

/-- Claim C3 witness: the topic "policy:authz" is classified as the single
directory "authz"; the topic "webhook" triggers a warning and a full
reconcile. -/
theorem updater_topic_classification_witness :
    ( PolicyUpdater._update_policy ["a", "b"] (fun _ => (none : Option Nat))
        "policy:authz").2.fetched = [["authz"]] ∧
    ( PolicyUpdater._update_policy ["a", "b"] (fun _ => (none : Option Nat))
        "webhook").1 = ["invalid policy topic"] := by
  constructor
  · have h := (updater_topic_classification ["a", "b"] (fun _ => (none : Option Nat))
      "policy:authz").1 (by decide)
    rw [h.2]
    decide
  · exact ((updater_topic_classification ["a", "b"] (fun _ => (none : Option Nat))
      "webhook").2.1 (by decide)).1

/-- Claim C5: an empty or omitted `directories` argument resolves to all
configured directories, and when the fetch collaborator returns no bundle
the store's bulk-apply `set_policies` is never invoked — a no-op, not an
error. -/
theorem update_policy_empty_resolution_and_no_bundle {B : Type}
    (config_dirs : List String) (fetch : List String → Option B) :
    ( update_policy config_dirs fetch []).fetched =
      [ all_policy_directories config_dirs] ∧
    ∀ directories,
      fetch (if directories.isEmpty then all_policy_directories config_dirs
        else directories) = none →
      ( update_policy config_dirs fetch directories).set_policies_calls = [] := by
  constructor
  · rw [update_policy_fetched_eq]
    rfl
  · intro directories hf
    simp only [update_policy, hf]

/-- Claim C5 witness: with a fetcher that returns no bundle, the reconcile
of the empty directory list fetches all configured directories and applies
nothing to the store. -/
theorem update_policy_empty_resolution_witness :
    ( update_policy ["a", "b"] (fun _ => (none : Option Nat)) []).fetched =
      [["a", "b"]] ∧
    ( update_policy ["a", "b"] (fun _ => (none : Option Nat)) ["c"]).set_policies_calls
      = [] := by
  have h := update_policy_empty_resolution_and_no_bundle ["a", "b"]
    (fun _ => (none : Option Nat))
  exact ⟨h.1, h.2 ["c"] rfl⟩

/-- Claim C4, counterexample: on an initial-handshake rejection the
orchestrator signals itself with `SIGTERM` (the termination signal), not
with `SIGINT`, the operating system's standard interrupt signal the claim
names. -/
theorem launch_failure_signals_sigterm_not_sigint :
    launch_policy_store_dependent_tasks [some LaunchExc.invalidStatusCode, none] =
      ([OrchEvent.launchPolicyUpdater, OrchEvent.launchDataUpdater,
        OrchEvent.logError, OrchEvent.logInfo,
        OrchEvent.killSelf Signal.SIGTERM], none) ∧
    OrchEvent.killSelf Signal.SIGINT ∉
      (launch_policy_store_dependent_tasks
        [some LaunchExc.invalidStatusCode, none]).1 :=
  ⟨by decide, by decide⟩

/-- Claim C4 (amended): if launching the updaters fails at startup with the
invalid-status handshake error, the orchestrator does not retry (each
launch appears exactly once in the trace), logs the failure, and requests
termination of the whole process by sending itself `SIGTERM`, the standard
termination signal, exactly once; no exception escapes. -/
theorem launch_invalid_status_terminates (results : List (Option LaunchExc))
    (h : await_as_completed results = some LaunchExc.invalidStatusCode) :
    launch_policy_store_dependent_tasks results =
      ([OrchEvent.launchPolicyUpdater, OrchEvent.launchDataUpdater,
        OrchEvent.logError, OrchEvent.logInfo,
        OrchEvent.killSelf Signal.SIGTERM], none) ∧
    (launch_policy_store_dependent_tasks results).1.count
      OrchEvent.launchPolicyUpdater = 1 ∧
    (launch_policy_store_dependent_tasks results).1.count
      OrchEvent.launchDataUpdater = 1 ∧
    (launch_policy_store_dependent_tasks results).1.count
      (OrchEvent.killSelf Signal.SIGTERM) = 1 := by
  have h2 : launch_policy_store_dependent_tasks results =
      ([OrchEvent.launchPolicyUpdater, OrchEvent.launchDataUpdater,
        OrchEvent.logError, OrchEvent.logInfo,
        OrchEvent.killSelf Signal.SIGTERM], none) := by
    simp [launch_policy_store_dependent_tasks, h]
  rw [h2]
  exact ⟨rfl, by decide, by decide, by decide⟩

/-- Claim C4 witness: the amended behavior at the concrete completion
order where the policy-updater launch is rejected first. -/
theorem launch_invalid_status_terminates_witness :
    launch_policy_store_dependent_tasks [some LaunchExc.invalidStatusCode, none] =
      ([OrchEvent.launchPolicyUpdater, OrchEvent.launchDataUpdater,
        OrchEvent.logError, OrchEvent.logInfo,
        OrchEvent.killSelf Signal.SIGTERM], none) :=
  (launch_invalid_status_terminates [some LaunchExc.invalidStatusCode, none]
    (by decide)).1

/-- Claim C6: `PolicyUpdater.stop` completes the transport disconnect
strictly before the dedicated event-loop thread is stopped: every
occurrence of the completed disconnect precedes every occurrence of the
thread teardown in the stop trace, and both occur. -/
theorem policy_updater_stop_ordering :
    (∀ i j : Fin (List.length PolicyUpdater.stop),
      PolicyUpdater.stop.get i = UpdaterStopEvent.disconnectCompleted →
      PolicyUpdater.stop.get j = UpdaterStopEvent.threadStopped →
      (i : Nat) < (j : Nat)) ∧
    UpdaterStopEvent.disconnectCompleted ∈ PolicyUpdater.stop ∧
    UpdaterStopEvent.threadStopped ∈ PolicyUpdater.stop := by
  refine ⟨by decide, by decide, by decide⟩

/-- Claim C6 witness: the disconnect completion (position 1) precedes the
thread teardown (position 2) in the concrete stop trace. -/
theorem policy_updater_stop_ordering_witness : (1 : Nat) < 2 :=
  policy_updater_stop_ordering.1 ⟨1, by decide⟩ ⟨2, by decide⟩
    (by decide) (by decide)

/-- Claim C7: orchestrator shutdown waits for the gathered stop operations
no longer than the fixed 5-second bound (the elapsed time never exceeds 5);
a timeout is logged (the timeout flag and the log flag always agree) and is
never re-raised — the method always returns `Except.ok`, for every
combination of updater stop outcomes. -/
theorem shutdown_bounded_and_timeout_logged (opa_runner : Bool)
    (data_updater policy_updater : Option StopOutcome) :
    (stop_client_background_tasks opa_runner data_updater policy_updater).isOk
      = true ∧
    ∀ r, stop_client_background_tasks opa_runner data_updater policy_updater =
      Except.ok r →
      r.elapsed ≤ 5 ∧ r.timed_out = r.logged_timeout ∧
      (r.timed_out = true → r.elapsed = 5) := by
  rw [stop_client_background_tasks_eq]
  cases hw : wait_for 5 (gather_return_exceptions
      (data_updater.toList ++ policy_updater.toList)) with
  | completed t v =>
    refine ⟨rfl, fun r hr => ?_⟩
    injection hr with h
    subst h
    exact ⟨wait_for_completed_le 5 _ t v hw, rfl, fun hto => nomatch hto⟩
  | timeoutError =>
    refine ⟨rfl, fun r hr => ?_⟩
    injection hr with h
    subst h
    exact ⟨Nat.le_refl 5, rfl, fun _ => rfl⟩

/-- Claim C7 witness: with one stop hanging forever, shutdown still returns
after the 5-second bound with the timeout logged. -/
theorem shutdown_bounded_witness :
    stop_client_background_tasks true (some StopOutcome.hangs)
        (some (StopOutcome.completes 1 false)) =
      Except.ok { opa_stopped := true, tasks_created := 2, gather_results := none,
                  timed_out := true, logged_timeout := true, elapsed := 5 } ∧
    (5 : Nat) ≤ 5 := by
  refine ⟨rfl, ?_⟩
  exact ((shutdown_bounded_and_timeout_logged true (some StopOutcome.hangs)
    (some (StopOutcome.completes 1 false))).2
    { opa_stopped := true, tasks_created := 2, gather_results := none,
      timed_out := true, logged_timeout := true, elapsed := 5 } rfl).1

/-- Claim C8: mapping each configured directory to its subscription topic
(prefixing with the fixed policy namespace, order-preserving) and then
stripping the prefix from each topic recovers the directory list exactly,
element for element in order; prefixing is injective, so the
directory-to-topic mapping is a bijection onto directory-derived topics. -/
theorem dirs_to_topics_roundtrip (dirs : List String) :
    ( dirs_to_topics dirs).map (fun t => remove_prefix t POLICY_PREFIX) = dirs ∧
    ∀ d1 d2 : String, POLICY_PREFIX ++ d1 = POLICY_PREFIX ++ d2 → d1 = d2 := by
  constructor
  · rw [dirs_to_topics, List.map_map]
    have hc : ((fun t => remove_prefix t POLICY_PREFIX) ∘
        fun d => POLICY_PREFIX ++ d) = id := by
      funext d
      simp [Function.comp, remove_prefix_append]
    rw [hc, List.map_id]
  · intro d1 d2 h
    have hdata := congrArg String.data h
    rw [String.data_append, String.data_append] at hdata
    exact String.ext (List.append_cancel_left hdata)

/-- Claim C8 witness: the round trip at a concrete directory set, and
injectivity discharged at a concrete pair. -/
theorem dirs_to_topics_roundtrip_witness :
    ( dirs_to_topics ["authz", "rbac"]).map
      (fun t => remove_prefix t POLICY_PREFIX) = ["authz", "rbac"] ∧
    ("authz" : String) = "authz" :=
  ⟨(dirs_to_topics_roundtrip ["authz", "rbac"]).1,
   (dirs_to_topics_roundtrip []).2 "authz" "authz" rfl⟩

/-- Claim C10: the two updater stop tasks are gathered with exceptions
captured as results — one updater's stop ending in an exception does not
prevent the other's completion from being awaited and recorded, nothing
propagates out of the method (it always returns `Except.ok`), and the only
caught condition is the 5-second timeout. -/
theorem shutdown_gather_captures_exceptions (opa_runner : Bool)
    (t1 t2 : Nat) (e1 e2 : Bool) :
    (stop_client_background_tasks opa_runner (some (StopOutcome.completes t1 e1))
      (some (StopOutcome.completes t2 e2))).isOk = true ∧
    (max t1 t2 ≤ 5 →
      stop_client_background_tasks opa_runner (some (StopOutcome.completes t1 e1))
        (some (StopOutcome.completes t2 e2)) =
        Except.ok { opa_stopped := opa_runner, tasks_created := 2,
                    gather_results := some [e1, e2], timed_out := false,
                    logged_timeout := false, elapsed := max t1 t2 }) := by
  have hg : gather_return_exceptions
      ((some (StopOutcome.completes t1 e1)).toList ++
        (some (StopOutcome.completes t2 e2)).toList) =
      some (max t1 t2, [e1, e2]) := by
    simp [gather_return_exceptions]
  constructor
  · rw [stop_client_background_tasks_eq, hg, wait_for_some]
    by_cases hle : max t1 t2 ≤ 5
    · rw [if_pos hle]
      rfl
    · rw [if_neg hle]
      rfl
  · intro hle
    rw [stop_client_background_tasks_eq, hg, wait_for_some, if_pos hle]
    rfl

/-- Claim C10 witness: a data-updater stop that raises is captured as a
result while the policy-updater stop is still awaited and recorded. -/
theorem shutdown_gather_captures_exceptions_witness :
    stop_client_background_tasks true (some (StopOutcome.completes 1 true))
        (some (StopOutcome.completes 2 false)) =
      Except.ok { opa_stopped := true, tasks_created := 2,
                  gather_results := some [true, false], timed_out := false,
                  logged_timeout := false, elapsed := 2 } :=
  (shutdown_gather_captures_exceptions true 1 2 true false).2 (by decide)
